import Mathlib

/-
Verification of the FFI trampoline declared in
src/lib/cloud_sql_proxy/extern.h:

  typedef void (*callbackFunc) (char*, char*);
  void invokeFunctionPointer(callbackFunc f, char* s, char* e);

The header declares a callback type taking two byte-string pointers and a
single entry point that invokes such a callback with two caller-supplied
pointers.  We embed the shim over an explicit world (byte memory plus a
heap-operation counter), give function-pointer values their semantics via an
environment, and instrument each indirect call with a trace event so that
the observable behaviour of the shim can be stated and proved.
-/

namespace CloudSqlProxy

/-- A machine pointer value, as produced and consumed by the C declarations
in src/lib/cloud_sql_proxy/extern.h.  The null pointer is encoded as 0. -/
abbrev Ptr : Type := Nat

/-- Byte-addressable memory: the byte stored at each address. -/
abbrev Mem : Type := Ptr → Nat

/-- The world visible to native code: the byte memory together with a count
of heap operations (allocations, copies, frees) performed so far.  Only
callbacks ever change the world; the claims assert the shim does not. -/
structure World where
  mem : Mem
  heapOps : Nat

/-- One indirect call performed through a function pointer: the target
address and the two argument pointer values, in the order they were
passed. -/
structure CallEvent where
  fptr : Ptr
  arg1 : Ptr
  arg2 : Ptr
deriving DecidableEq, Repr

/-- How a callback run ends: it returns normally with a final world, traps
with a fault carrying a signal number and the world at the trap, or never
returns (blocks forever). -/
inductive Outcome where
  | ok (w : World)
  | fault (sig : Nat) (w : World)
  | diverge

/-- Semantics of function-pointer values: to each pointer value, the
behaviour of the code at that address, as a function of the two pointer
arguments and the world at the moment of the call. -/
abbrev Env : Type := Ptr → Ptr → Ptr → World → Outcome

/-- The complete observable result of one shim call: the (void) value
returned to the caller, the outcome of the callback, and the trace of
indirect calls the shim performed. -/
structure InvokeResult where
  retVal : Unit
  outcome : Outcome
  trace : List CallEvent

/-- Modelled from the spec: src/lib/cloud_sql_proxy/extern.h declares
invokeFunctionPointer but its definition is not under src/.  Per the spec
(section 4.1, Algorithm) the body is a single indirect call: evaluate f,
pass s then e in that order per the platform calling convention, invoke,
and return, with no argument transformation, no reordering, no copy, and
no retained state.  The trace component records the indirect calls the
shim performs, each with its target and its argument pointers in order. -/
def invokeFunctionPointer (env : Env) (f s e : Ptr) (w : World) : InvokeResult :=
  { retVal := ()
    outcome := env f s e w
    trace := [{ fptr := f, arg1 := s, arg2 := e }] }

/-- Run a list of back-to-back shim calls on one thread, threading the world
through; a faulting callback terminates the process and a diverging one
blocks the thread, so either ends the run.  Returns the final outcome and
the concatenated trace of indirect calls performed. -/
def invokeSeq (env : Env) (calls : List (Ptr × Ptr × Ptr)) (w : World) :
    Outcome × List CallEvent :=
  match calls with
  | [] => (Outcome.ok w, [])
  | (f, s, e) :: rest =>
    let r := invokeFunctionPointer env f s e w
    match r.outcome with
    | Outcome.ok w2 =>
      let rec2 := invokeSeq env rest w2
      (rec2.1, r.trace ++ rec2.2)
    | Outcome.fault sig w2 => (Outcome.fault sig w2, r.trace)
    | Outcome.diverge => (Outcome.diverge, r.trace)

/-- Run one interleaving of shim calls issued by several threads: each
scheduled entry is the issuing thread identifier followed by the call
arguments.  Events in the trace are tagged with the thread that performed
the call. -/
def invokeSched (env : Env) (sched : List (Nat × Ptr × Ptr × Ptr)) (w : World) :
    Outcome × List (Nat × CallEvent) :=
  match sched with
  | [] => (Outcome.ok w, [])
  | (t, f, s, e) :: rest =>
    let r := invokeFunctionPointer env f s e w
    match r.outcome with
    | Outcome.ok w2 =>
      let rec2 := invokeSched env rest w2
      (rec2.1, r.trace.map (fun ev => (t, ev)) ++ rec2.2)
    | Outcome.fault sig w2 => (Outcome.fault sig w2, r.trace.map (fun ev => (t, ev)))
    | Outcome.diverge => (Outcome.diverge, r.trace.map (fun ev => (t, ev)))

/-- A callback environment in which every callback returns normally and
leaves the world unchanged; used to instantiate universally quantified
theorems at concrete inputs. -/
def envOk : Env := fun _ _ _ w => Outcome.ok w

/-- A concrete initial world: all memory zero, no heap operations. -/
def w0 : World := { mem := fun _ => 0, heapOps := 0 }

/-- Claim C1, forwarding fidelity: one shim call performs exactly one
indirect call, whose target is f and whose arguments are s then e in that
order, untransformed; and the callback is applied to exactly those
arguments and the unmodified world. -/
theorem forwarding_fidelity (env : Env) (f s e : Ptr) (w : World) :
    (invokeFunctionPointer env f s e w).trace = [{ fptr := f, arg1 := s, arg2 := e }] ∧
    (invokeFunctionPointer env f s e w).outcome = env f s e w :=
  ⟨rfl, rfl⟩

/-- Claim C2, call multiplicity: under the precondition that f is non-null,
a single shim call performs exactly one indirect call in total, and exactly
one of its indirect calls targets f — never zero and never more than
once. -/
theorem call_multiplicity (env : Env) (f s e : Ptr) (w : World) (h : f ≠ 0) :
    (invokeFunctionPointer env f s e w).trace.length = 1 ∧
    (invokeFunctionPointer env f s e w).trace.countP (fun ev => ev.fptr == f) = 1 := by
  refine ⟨rfl, ?_⟩
  simp [invokeFunctionPointer]

/-- Witness for C2 at the concrete call (f, s, e) = (1, 2, 3). -/
theorem call_multiplicity_witness :
    (invokeFunctionPointer envOk 1 2 3 w0).trace.length = 1 ∧
    (invokeFunctionPointer envOk 1 2 3 w0).trace.countP (fun ev => ev.fptr == 1) = 1 :=
  call_multiplicity envOk 1 2 3 w0 (by decide)

/-- Claim C3, pointer identity: every indirect call the shim performs
delivers argument pointer values that are bit-identical, as addresses, to
the s and e the shim received; no copy and no re-allocation intervenes. -/
theorem pointer_identity (env : Env) (f s e : Ptr) (w : World) :
    ∀ ev ∈ (invokeFunctionPointer env f s e w).trace, ev.arg1 = s ∧ ev.arg2 = e := by
  intro ev hev
  simp [invokeFunctionPointer] at hev
  subst hev
  exact ⟨rfl, rfl⟩

/-- Witness for C3 at the concrete call (f, s, e) = (9, 4, 5). -/
theorem pointer_identity_witness :
    ({ fptr := 9, arg1 := 4, arg2 := 5 } : CallEvent).arg1 = 4 ∧
    ({ fptr := 9, arg1 := 4, arg2 := 5 } : CallEvent).arg2 = 5 :=
  pointer_identity envOk 9 4 5 w0 { fptr := 9, arg1 := 4, arg2 := 5 }
    (by simp [invokeFunctionPointer])

/-- Claim C4, null tolerance: when a null pointer (address 0) is passed in
either string slot, the callback receives the null pointer in that slot
unchanged — the shim substitutes nothing — and the callback is applied to
exactly the given arguments. -/
theorem null_tolerance (env : Env) (f s e : Ptr) (w : World) :
    (s = 0 →
      (invokeFunctionPointer env f s e w).trace = [{ fptr := f, arg1 := 0, arg2 := e }] ∧
      (invokeFunctionPointer env f s e w).outcome = env f 0 e w) ∧
    (e = 0 →
      (invokeFunctionPointer env f s e w).trace = [{ fptr := f, arg1 := s, arg2 := 0 }] ∧
      (invokeFunctionPointer env f s e w).outcome = env f s 0 w) := by
  constructor <;> rintro rfl <;> exact ⟨rfl, rfl⟩

/-- Witness for C4 at the concrete call (f, s, e) = (7, null, 5). -/
theorem null_tolerance_witness :
    (invokeFunctionPointer envOk 7 0 5 w0).trace = [{ fptr := 7, arg1 := 0, arg2 := 5 }] :=
  ((null_tolerance envOk 7 0 5 w0).1 rfl).1

/-- Claim C5, statelessness and re-entrancy: in a run of back-to-back shim
calls whose callbacks all return normally, the sequence of indirect calls
delivered is pointwise the image of the sequence of requested calls — each
invocation is determined by that call's own arguments alone, independent of
its position, of every earlier call and of the world, so no data from call
N influences call N+1. -/
theorem statelessness (env : Env) (calls : List (Ptr × Ptr × Ptr)) (w : World)
    (h : ∀ f s e w1, ∃ w2, env f s e w1 = Outcome.ok w2) :
    (invokeSeq env calls w).2 =
      calls.map (fun c => { fptr := c.1, arg1 := c.2.1, arg2 := c.2.2 }) := by
  induction calls generalizing w with
  | nil => rfl
  | cons c rest ih =>
    obtain ⟨f, s, e⟩ := c
    obtain ⟨w2, hw2⟩ := h f s e w
    simp only [invokeSeq, invokeFunctionPointer, hw2, List.map_cons]
    simp [ih w2]

/-- Witness for C5 at a concrete run of two calls. -/
theorem statelessness_witness :
    (invokeSeq envOk [(1, 2, 3), (4, 5, 6)] w0).2 =
      [{ fptr := 1, arg1 := 2, arg2 := 3 }, { fptr := 4, arg1 := 5, arg2 := 6 }] :=
  statelessness envOk [(1, 2, 3), (4, 5, 6)] w0 (fun _ _ _ w1 => ⟨w1, rfl⟩)

/-- Claim C6, frame property on the strings: the shim consults the callback
only at the original arguments and the unmodified world — so two callback
environments that agree there yield identical calls — and the final outcome
of the call, world included, is exactly what the callback produced: the
shim itself adds no allocation, no copy, no free and no byte mutation, so
any change to the bytes reachable from s or e comes from the callback
alone. -/
theorem shim_frame (env env2 : Env) (f s e : Ptr) (w : World)
    (h : env f s e w = env2 f s e w) :
    invokeFunctionPointer env f s e w = invokeFunctionPointer env2 f s e w ∧
    (invokeFunctionPointer env f s e w).outcome = env f s e w := by
  refine ⟨?_, rfl⟩
  simp [invokeFunctionPointer, h]

/-- Witness for C6 at the concrete call (f, s, e) = (3, 1, 2). -/
theorem shim_frame_witness :
    invokeFunctionPointer envOk 3 1 2 w0 = invokeFunctionPointer envOk 3 1 2 w0 ∧
    (invokeFunctionPointer envOk 3 1 2 w0).outcome = envOk 3 1 2 w0 :=
  shim_frame envOk envOk 3 1 2 w0 rfl

/-- Claim C7, the shim cannot fail by itself: a shim call returns normally
exactly when the callback returns normally, and every fault observed during
the call is exactly a fault of the callback, with its signal and world
propagated uninterpreted. -/
theorem shim_cannot_fail (env : Env) (f s e : Ptr) (w : World) :
    (∀ w2, (invokeFunctionPointer env f s e w).outcome = Outcome.ok w2 ↔
        env f s e w = Outcome.ok w2) ∧
    (∀ sig w2, (invokeFunctionPointer env f s e w).outcome = Outcome.fault sig w2 ↔
        env f s e w = Outcome.fault sig w2) :=
  ⟨fun _ => Iff.rfl, fun _ _ => Iff.rfl⟩

/-- Claim C8, synchronous completion with no result value: the shim returns
the void value to its caller, and the shim call fails to return (blocks
forever) exactly when the callback does — it returns if and only if the
callback returns. -/
theorem synchronous_completion (env : Env) (f s e : Ptr) (w : World) :
    (invokeFunctionPointer env f s e w).retVal = () ∧
    ((invokeFunctionPointer env f s e w).outcome = Outcome.diverge ↔
      env f s e w = Outcome.diverge) :=
  ⟨rfl, Iff.rfl⟩

/-- Claim C9, determinism and content-independence: the shim never reads
memory, so its own observables — the trace of indirect calls it performs
and the value it returns — are identical across any two worlds, i.e. they
are a deterministic function of the pointer values (f, s, e) alone,
regardless of the bytes the strings contain. -/
theorem content_independence (env : Env) (f s e : Ptr) (w1 w2 : World) :
    (invokeFunctionPointer env f s e w1).trace =
      (invokeFunctionPointer env f s e w2).trace ∧
    (invokeFunctionPointer env f s e w1).retVal =
      (invokeFunctionPointer env f s e w2).retVal :=
  ⟨rfl, rfl⟩

/-- Claim C10, thread independence: for any interleaving of shim calls
issued by several threads whose callbacks all return normally, the
sub-trace of indirect calls tagged with a given thread is exactly that
thread's own requested calls, in order, with its own arguments — the shim
has no shared state, so no other thread interferes. -/
theorem thread_independence (env : Env) (sched : List (Nat × Ptr × Ptr × Ptr))
    (w : World) (t : Nat)
    (h : ∀ f s e w1, ∃ w2, env f s e w1 = Outcome.ok w2) :
    ((invokeSched env sched w).2.filter (fun p => p.1 == t)).map Prod.snd =
      (sched.filter (fun c => c.1 == t)).map
        (fun c => { fptr := c.2.1, arg1 := c.2.2.1, arg2 := c.2.2.2 }) := by
  induction sched generalizing w with
  | nil => rfl
  | cons c rest ih =>
    obtain ⟨t1, f, s, e⟩ := c
    obtain ⟨w2, hw2⟩ := h f s e w
    simp only [invokeSched, invokeFunctionPointer, hw2, List.map_cons, List.map_nil]
    by_cases ht : t1 = t
    · subst ht
      simp [List.filter_cons, ih w2]
    · simp [List.filter_cons, ht, ih w2]

/-- Witness for C10 at a concrete interleaving of two threads, projected to
thread 0. -/
theorem thread_independence_witness :
    ((invokeSched envOk [(0, 1, 2, 3), (1, 4, 5, 6), (0, 7, 8, 9)] w0).2.filter
        (fun p => p.1 == 0)).map Prod.snd =
      [{ fptr := 1, arg1 := 2, arg2 := 3 }, { fptr := 7, arg1 := 8, arg2 := 9 }] :=
  thread_independence envOk [(0, 1, 2, 3), (1, 4, 5, 6), (0, 7, 8, 9)] w0 0
    (fun _ _ _ w1 => ⟨w1, rfl⟩)

end CloudSqlProxy
